import Mathlib

/-!
Verification development for the Jellyfin library-statistics cog
(`src/jellyfin_library_stats/jellyfin_library_stats.py`).

The Python cog is embedded shallowly:

* HTTP calls appear as explicit environment records (`FetchEnv`, `UpdateEnv`)
  whose fields give, for each request the code can make, the outcome the
  outside world produces (a status code and parsed JSON body, or an
  exception).  `HttpOutcome.exn` stands for any exception raised inside the
  corresponding `try` block (timeouts, connection errors, JSON errors).
* The persistent `Config` key-value store is the record `GlobalConfig`;
  Python truthiness tests on its values (`if not jellyfin_url`, `not all([...])`)
  are `strTruthy` / `natTruthy`.
* Python `dict` insertion (`library_stats[name] = n`) is `dictInsert` on an
  association list: it replaces the value at an existing key in place and
  otherwise appends, which is exactly CPython's insertion-ordered dict.
* Python string operations are modelled on the character list `String.data`:
  `needle in s` is `pyIn`, `s.lower()` is `pyLower` (per-character lowering,
  which agrees with CPython on the ASCII names involved),
  `s.endswith("/")` is a test of the last character, `s[:-1]` is `dropLast`.
* Side effects that the claims talk about (editing the tracked message,
  writing the `last_update` key) are collected in an `Effect` trace returned
  alongside the function's Python return value.
-/

namespace JellyfinStats

/-- Python's substring membership test `needle in hay`, on character lists:
true when `needle` occurs contiguously in `hay`. -/
def strContainsAux (needle : List Char) : List Char → Bool
  | [] => needle.isEmpty
  | c :: rest => needle.isPrefixOf (c :: rest) || strContainsAux needle rest

/-- Python's `needle in hay` for strings. -/
def pyIn (needle hay : String) : Bool :=
  strContainsAux needle.data hay.data

/-- Python's `s.lower()`: lower-case every character. -/
def pyLower (s : String) : String :=
  String.mk (s.data.map Char.toLower)

/-- One entry of the `Items` array returned by `GET {base_url}/Library/MediaFolders`:
the fields the cog reads are `Id`, `Name` and the optional `CollectionType`
(`library.get('CollectionType', '')` defaults the missing key to `""`,
modelled by `Option.getD`). -/
structure Library where
  id : String
  name : String
  collectionType : Option String
deriving DecidableEq

/-- Outcome of one guarded HTTP GET: a status code together with the parsed
body, or an exception raised anywhere inside the surrounding `try`. -/
inductive HttpOutcome (β : Type) where
  | resp (status : Nat) (body : β)
  | exn
deriving DecidableEq

/-- The outside world as seen by `fetch_jellyfin_libraries`:
the outcome of the single `GET {jellyfin_url}/Library/MediaFolders` request,
and the outcome of each per-library `GET {jellyfin_url}/Items?...` request,
keyed by the exact request URL the code builds.  The items body is the
optional `TotalRecordCount` field (`items_data.get('TotalRecordCount', 0)`). -/
structure FetchEnv where
  mediaFolders : HttpOutcome (List Library)
  items : String → HttpOutcome (Option Nat)

/-- The cog's registered global configuration keys (`register_global`),
each `None` until set. -/
structure GlobalConfig where
  jellyfin_url : Option String
  jellyfin_api_key : Option String
  update_channel_id : Option Nat
  update_message_id : Option Nat
  last_update : Option String
deriving DecidableEq

/-- Python truthiness of an optional string config value:
`None` and `""` are falsy. -/
def strTruthy : Option String → Bool
  | none => false
  | some s => !s.isEmpty

/-- Python truthiness of an optional integer config value:
`None` and `0` are falsy. -/
def natTruthy : Option Nat → Bool
  | none => false
  | some n => n != 0

/-- CPython dict assignment `d[k] = v` on an insertion-ordered association
list: overwrite in place if the key exists, else append. -/
def dictInsert (k : String) (v : Nat) : List (String × Nat) → List (String × Nat)
  | [] => [(k, v)]
  | (k₂, v₂) :: rest =>
    if k₂ = k then (k, v) :: rest else (k₂, v₂) :: dictInsert k v rest

/-- Lines 202-214: the per-library items URL.  `collection_type` is
`library.get('CollectionType', '').lower()`; TV libraries get the
`IncludeItemTypes=Series` filter, everything else the plain recursive
listing, both with `Limit=0`. -/
def countUrl (jellyfin_url : String) (library : Library) : String :=
  let collection_type := pyLower (library.collectionType.getD "")
  if pyIn "tvshows" collection_type || pyIn "tv" collection_type then
    jellyfin_url ++ "/Items?ParentId=" ++ library.id ++
      "&IncludeItemTypes=Series&Recursive=true&Limit=0"
  else
    jellyfin_url ++ "/Items?ParentId=" ++ library.id ++ "&Recursive=true&Limit=0"

/-- Lines 205-229: the count recorded for one retained library.
Status 200: `TotalRecordCount` (missing field defaults to 0).
Any other status, or any exception in the inner `try`: 0. -/
def countLibrary (env : FetchEnv) (jellyfin_url : String) (library : Library) : Nat :=
  match env.items (countUrl jellyfin_url library) with
  | .resp status body => if status = 200 then body.getD 0 else 0
  | .exn => 0

/-- Lines 190-229: the `for library in libraries` loop.  A library whose
lower-cased name contains `"playlist"` is skipped (`continue`); every other
library's count is stored in the `library_stats` dict. -/
def fetchLoop (env : FetchEnv) (jellyfin_url : String) :
    List Library → List (String × Nat) → List (String × Nat)
  | [], library_stats => library_stats
  | library :: rest, library_stats =>
    if pyIn "playlist" (pyLower library.name) then
      fetchLoop env jellyfin_url rest library_stats
    else
      fetchLoop env jellyfin_url rest
        (dictInsert library.name (countLibrary env jellyfin_url library) library_stats)

/-- Lines 165-242, `fetch_jellyfin_libraries`: returns the stats dict, or
`None` when the URL or API key is unset/empty, when the media-folders
request does not return status 200 or raises, or when the collected dict is
empty (falsy). -/
def fetch_jellyfin_libraries (cfg : GlobalConfig) (env : FetchEnv) :
    Option (List (String × Nat)) :=
  if !strTruthy cfg.jellyfin_url || !strTruthy cfg.jellyfin_api_key then
    none
  else
    match env.mediaFolders with
    | .exn => none
    | .resp status libraries =>
      if status = 200 then
        let library_stats := fetchLoop env (cfg.jellyfin_url.getD "") libraries []
        if library_stats.isEmpty then none else some library_stats
      else
        none

/-- The Discord embed the cog builds (lines 267-275): title, description
carrying the human-readable timestamp, and one `(name, value)` field per
library in dict (insertion) order, `value = str(item_count)`. -/
structure Embed where
  title : String
  description : String
  fields : List (String × String)
deriving DecidableEq

/-- The externally visible side effects the claims talk about: the in-place
edit of the tracked message (line 280) and the write of the `last_update`
configuration key (line 290). -/
inductive Effect where
  | editMessage (messageId : Nat) (content : String) (embed : Embed)
  | setLastUpdate (t : String)
deriving DecidableEq

/-- True exactly on the `last_update` configuration write. -/
def isSetLastUpdate : Effect → Bool
  | .setLastUpdate _ => true
  | .editMessage _ _ _ => false

/-- Outcome of `channel.fetch_message(message_id)` (lines 279-287):
the message exists, `discord.NotFound` is raised, or some other exception
is raised. -/
inductive MsgFetch where
  | found
  | notFound
  | raised
deriving DecidableEq

/-- Outcome of `message.edit(...)` (line 280): it succeeds, or raises. -/
inductive EditOutcome where
  | edited
  | raised
deriving DecidableEq

/-- The outside world as seen by one `update_stats` run: the HTTP
environment for `fetch_jellyfin_libraries`, whether `bot.get_channel`
returns a live channel, the message-fetch and message-edit outcomes, and
the two renderings of `datetime.now()` the code takes
(`strftime('%d.%m.%Y %H:%M')` and `isoformat()`). -/
structure UpdateEnv where
  fetch : FetchEnv
  channelFound : Bool
  msgFetch : MsgFetch
  editOutcome : EditOutcome
  nowFmt : String
  nowIso : String

/-- Lines 244-298, `update_stats`: returns the Python return value together
with the trace of message-edit and `last_update` effects.  The
`force_update` parameter is the function's keyword argument (default
`False`); the body never reads it.  Every exception inside the outer `try`
is caught (lines 296-298) and becomes a `False` return, so the embedding is
a total function. -/
def update_stats (cfg : GlobalConfig) (env : UpdateEnv) ( force_update : Bool) :
    Bool × List Effect :=
  if !(strTruthy cfg.jellyfin_url && natTruthy cfg.update_channel_id &&
        natTruthy cfg.update_message_id) then
    (false, [])
  else
    match fetch_jellyfin_libraries cfg env.fetch with
    | none => (false, [])
    | some library_stats =>
      if library_stats.isEmpty then
        (false, [])
      else if !env.channelFound then
        (false, [])
      else
        let embed : Embed :=
          { title := "📊 Freia Library Statistics"
            description := "Updated at: " ++ env.nowFmt
            fields := library_stats.map fun p => (p.1, toString p.2) }
        match env.msgFetch with
        | .notFound => (false, [])
        | .raised => (false, [])
        | .found =>
          match env.editOutcome with
          | .raised => (false, [])
          | .edited =>
            (true, [Effect.editMessage (cfg.update_message_id.getD 0) "" embed,
                    Effect.setLastUpdate env.nowIso])

/-- How one scheduled pipeline run ends as seen by `background_update`'s
`try`/`except`: `update_stats` returned a boolean, or an exception escaped
it.  Since `update_stats` catches every `Exception` itself (lines 296-298)
and the configuration reads are modelled as total, a scheduled run always
produces `returned`; `raised` is the case the `except` branch guards. -/
inductive RunOutcome where
  | returned (success : Bool)
  | raised
deriving DecidableEq

/-- Lines 304-312: the sleep chosen after one loop body — 604800 s (7 days)
after the `try` body completes, 3600 s (1 hour) in the `except` branch. -/
def backgroundSleep : RunOutcome → Nat
  | .returned _ => 604800
  | .raised => 3600

/-- What the `while not self.bot.is_closed()` loop does after one
iteration: continue after a sleep, or stop.  `stopped` happens only when
the host bot is closed; no run outcome produces it. -/
inductive LoopStep where
  | continueAfter (sleepSeconds : Nat)
  | stopped
deriving DecidableEq

/-- One iteration of `background_update` (lines 300-312) with the bot still
open: run `update_stats` (no argument, so `force_update=False`), then sleep.
The embedded `update_stats` never raises, so the outcome is always
`returned` and the iteration always continues. -/
def background_update_iteration (cfg : GlobalConfig) (env : UpdateEnv) : LoopStep :=
  .continueAfter (backgroundSleep (.returned (update_stats cfg env false).1))

/-- Lines 49-51 of `setup_jellyfin_stats`: if the URL ends with `"/"`
(last character is `'/'`), drop that one character (`jellyfin_url[:-1]`). -/
def setup_normalize_url (jellyfin_url : String) : String :=
  if jellyfin_url.data.getLast? = some '/' then
    String.mk jellyfin_url.data.dropLast
  else
    jellyfin_url

/-- Lines 46-60, the configuration writes of `setup_jellyfin_stats`: store
the normalized URL, the API key, the channel id, and the id of the freshly
sent placeholder message. -/
def setup_jellyfin_stats (cfg : GlobalConfig) (jellyfin_url api_key : String)
    (channel_id new_message_id : Nat) : GlobalConfig :=
  { cfg with
    jellyfin_url := some (setup_normalize_url jellyfin_url)
    jellyfin_api_key := some api_key
    update_channel_id := some channel_id
    update_message_id := some new_message_id }

/-! ### Concrete test fixtures

Small configurations and environments used to instantiate the theorems
below on concrete inputs; `envGood` realises the worked example of the
specification (Movies 120, Shows 15, Playlists excluded). -/

def libMovies : Library := { id := "m1", name := "Movies", collectionType := some "movies" }

def libShows : Library := { id := "t1", name := "Shows", collectionType := some "tvshows" }

def libPlaylists : Library :=
  { id := "p1", name := "Playlists", collectionType := some "playlists" }

def cfgGood : GlobalConfig :=
  { jellyfin_url := some "http://jf", jellyfin_api_key := some "key"
    update_channel_id := some 10, update_message_id := some 20, last_update := none }

def cfgNone : GlobalConfig :=
  { jellyfin_url := none, jellyfin_api_key := none
    update_channel_id := none, update_message_id := none, last_update := none }

def fetchGood : FetchEnv :=
  { mediaFolders := .resp 200 [libMovies, libShows, libPlaylists]
    items := fun url =>
      if url = countUrl "http://jf" libMovies then .resp 200 (some 120)
      else if url = countUrl "http://jf" libShows then .resp 200 (some 15)
      else .resp 404 none }

def envGood : UpdateEnv :=
  { fetch := fetchGood, channelFound := true, msgFetch := .found
    editOutcome := .edited, nowFmt := "01.01.2025 00:00"
    nowIso := "2025-01-01T00:00:00" }

def envPlaylistsOnly : UpdateEnv :=
  { fetch := { mediaFolders := .resp 200 [libPlaylists]
               items := fun _ => .resp 200 (some 1) }
    channelFound := true, msgFetch := .found, editOutcome := .edited
    nowFmt := "01.01.2025 00:00", nowIso := "2025-01-01T00:00:00" }

def envMsgGone : UpdateEnv :=
  { fetch := fetchGood, channelFound := true, msgFetch := .notFound
    editOutcome := .edited, nowFmt := "01.01.2025 00:00"
    nowIso := "2025-01-01T00:00:00" }

def envTriv : UpdateEnv :=
  { fetch := { mediaFolders := .exn, items := fun _ => .exn }
    channelFound := false, msgFetch := .raised, editOutcome := .raised
    nowFmt := "", nowIso := "" }

def libA : Library := { id := "a", name := "A", collectionType := some "movies" }

def libB : Library := { id := "b", name := "B", collectionType := some "movies" }

/-- Environment in which library `A`'s count request returns status 500
and library `B`'s returns the 2xx (but non-200) status 201 with a reported
total of 5. -/
def env201 : FetchEnv :=
  { mediaFolders := .resp 200 [libA, libB]
    items := fun url =>
      if url = countUrl "http://jf" libB then .resp 201 (some 5)
      else .resp 500 none }

/-- Environment in which the media-folders request itself returns the 2xx
(but non-200) status 201, with well-behaved per-library requests. -/
def envMf201 : FetchEnv :=
  { mediaFolders := .resp 201 [libMovies]
    items := fun _ => .resp 200 (some 3) }

/-- Environment in which the media-folders request returns status 500. -/
def envMf500 : FetchEnv :=
  { mediaFolders := .resp 500 [libMovies]
    items := fun _ => .resp 200 (some 3) }

/-! ### Helper definitions and lemmas about the stats dict and the library loop -/

/-- Spec-side accessor: the value stored under key `k` in the report
(association-list read, first match). -/
def keyVal (k : String) : List (String × Nat) → Option Nat
  | [] => none
  | (k₂, v) :: rest => if k₂ = k then some v else keyVal k rest

theorem keyVal_dictInsert_self (k : String) (v : Nat) (l : List (String × Nat)) :
    keyVal k (dictInsert k v l) = some v := by
  induction l with
  | nil => simp [dictInsert, keyVal]
  | cons p rest ih =>
    obtain ⟨k₂, v₂⟩ := p
    by_cases h : k₂ = k
    · simp [dictInsert, h, keyVal]
    · simp [dictInsert, h, keyVal, ih]

theorem keyVal_dictInsert_ne (k q : String) (v : Nat) (l : List (String × Nat))
    (h : k ≠ q) : keyVal q (dictInsert k v l) = keyVal q l := by
  induction l with
  | nil => simp [dictInsert, keyVal, h]
  | cons p rest ih =>
    obtain ⟨k₂, v₂⟩ := p
    by_cases h₂ : k₂ = k
    · subst h₂
      simp [dictInsert, keyVal, h]
    · simp [dictInsert, h₂, keyVal, ih]

theorem mem_keys_dictInsert (k q : String) (v : Nat) (l : List (String × Nat)) :
    q ∈ (dictInsert k v l).map Prod.fst ↔ q = k ∨ q ∈ l.map Prod.fst := by
  induction l with
  | nil => simp [dictInsert]
  | cons p rest ih =>
    obtain ⟨k₂, v₂⟩ := p
    by_cases h : k₂ = k
    · subst h
      simp [dictInsert]
    · simp [dictInsert, h, ih]
      tauto

theorem mem_keys_fetchLoop (env : FetchEnv) (jellyfin_url : String)
    (libs : List Library) (acc : List (String × Nat)) (q : String) :
    q ∈ (fetchLoop env jellyfin_url libs acc).map Prod.fst ↔
      q ∈ acc.map Prod.fst ∨
        ∃ lib ∈ libs, pyIn "playlist" (pyLower lib.name) = false ∧ lib.name = q := by
  induction libs generalizing acc with
  | nil => simp [fetchLoop]
  | cons lib rest ih =>
    cases hb : pyIn "playlist" (pyLower lib.name) with
    | true =>
      simp only [fetchLoop, hb, if_true, ih, List.mem_cons]
      constructor
      · rintro (ha | ⟨l, hl, hr, he⟩)
        · exact Or.inl ha
        · exact Or.inr ⟨l, Or.inr hl, hr, he⟩
      · rintro (ha | ⟨l, hl | hl, hr, he⟩)
        · exact Or.inl ha
        · subst hl
          rw [hb] at hr
          cases hr
        · exact Or.inr ⟨l, hl, hr, he⟩
    | false =>
      simp only [fetchLoop, hb, Bool.false_eq_true, if_false, ih, mem_keys_dictInsert,
        List.mem_cons]
      constructor
      · rintro ((he | ha) | ⟨l, hl, hr, he⟩)
        · exact Or.inr ⟨lib, Or.inl rfl, hb, he.symm⟩
        · exact Or.inl ha
        · exact Or.inr ⟨l, Or.inr hl, hr, he⟩
      · rintro (ha | ⟨l, hl | hl, hr, he⟩)
        · exact Or.inl (Or.inr ha)
        · subst hl
          exact Or.inl (Or.inl he.symm)
        · exact Or.inr ⟨l, hl, hr, he⟩

theorem fetchLoop_keyVal_preserved (env : FetchEnv) (jellyfin_url : String)
    (libs : List Library) (acc : List (String × Nat)) (q : String)
    (h : ∀ lib ∈ libs, lib.name ≠ q) :
    keyVal q (fetchLoop env jellyfin_url libs acc) = keyVal q acc := by
  induction libs generalizing acc with
  | nil => simp [fetchLoop]
  | cons lib rest ih =>
    have hrest : ∀ l ∈ rest, l.name ≠ q := fun l hl => h l (List.mem_cons_of_mem _ hl)
    cases hb : pyIn "playlist" (pyLower lib.name) with
    | true =>
      simp only [fetchLoop, hb, if_true]
      exact ih _ hrest
    | false =>
      simp only [fetchLoop, hb, Bool.false_eq_true, if_false]
      rw [ih _ hrest, keyVal_dictInsert_ne _ _ _ _ (h lib (List.mem_cons_self _ _))]

theorem fetchLoop_keyVal (env : FetchEnv) (jellyfin_url : String)
    (libs : List Library) (acc : List (String × Nat)) (lib : Library)
    (hnodup : (libs.map Library.name).Nodup)
    (hmem : lib ∈ libs)
    (hret : pyIn "playlist" (pyLower lib.name) = false)
    (hacc : lib.name ∉ acc.map Prod.fst) :
    keyVal lib.name (fetchLoop env jellyfin_url libs acc) =
      some (countLibrary env jellyfin_url lib) := by
  induction libs generalizing acc with
  | nil => cases hmem
  | cons hd rest ih =>
    rw [List.map_cons, List.nodup_cons] at hnodup
    obtain ⟨hhd, hrestnodup⟩ := hnodup
    rcases List.mem_cons.mp hmem with heq | hmemrest
    · subst heq
      simp only [fetchLoop, hret, Bool.false_eq_true, if_false]
      have hne : ∀ l ∈ rest, l.name ≠ lib.name := by
        intro l hl hcon
        exact hhd (hcon ▸ List.mem_map_of_mem Library.name hl)
      rw [fetchLoop_keyVal_preserved env jellyfin_url rest _ _ hne,
        keyVal_dictInsert_self]
    · have hne : lib.name ≠ hd.name := by
        intro hcon
        exact hhd (hcon ▸ List.mem_map_of_mem Library.name hmemrest)
      cases hb : pyIn "playlist" (pyLower hd.name) with
      | true =>
        simp only [fetchLoop, hb, if_true]
        exact ih _ hrestnodup hmemrest hacc
      | false =>
        simp only [fetchLoop, hb, Bool.false_eq_true, if_false]
        refine ih _ hrestnodup hmemrest ?_
        rw [mem_keys_dictInsert]
        rintro (hcon | hcon)
        · exact hne hcon
        · exact hacc hcon

/-- With URL and API key set and a status-200 media-folders response, the
fetch returns the loop's dict unless that dict is empty. -/
theorem fetch_resp200_eq (cfg : GlobalConfig) (env : FetchEnv) (items : List Library)
    (hurl : strTruthy cfg.jellyfin_url = true)
    (hkey : strTruthy cfg.jellyfin_api_key = true)
    (hmf : env.mediaFolders = HttpOutcome.resp 200 items) :
    fetch_jellyfin_libraries cfg env =
      if (fetchLoop env (cfg.jellyfin_url.getD "") items []).isEmpty then none
      else some (fetchLoop env (cfg.jellyfin_url.getD "") items []) := by
  unfold fetch_jellyfin_libraries
  rw [hmf, hurl, hkey]
  simp

/-! ### Claim theorems -/

/-- C1: whenever the media-folders endpoint returns a library list with
status 200 and a report is produced, no report entry's name contains
"playlist" in any letter case, and every listed library whose name does not
contain "playlist" (case-insensitively) has an entry in the report. -/
theorem playlist_entries_excluded (cfg : GlobalConfig) (env : FetchEnv)
    (items : List Library) (stats : List (String × Nat))
    (hmf : env.mediaFolders = HttpOutcome.resp 200 items)
    (hfetch : fetch_jellyfin_libraries cfg env = some stats) :
    (∀ p ∈ stats, pyIn "playlist" (pyLower p.1) = false) ∧
    (∀ lib ∈ items, pyIn "playlist" (pyLower lib.name) = false →
      lib.name ∈ stats.map Prod.fst) := by
  unfold fetch_jellyfin_libraries at hfetch
  rw [hmf] at hfetch
  split at hfetch
  · cases hfetch
  · dsimp only at hfetch
    rw [if_pos rfl] at hfetch
    split at hfetch
    · cases hfetch
    · injection hfetch with hstats
      subst hstats
      constructor
      · intro p hp
        have hk : p.1 ∈ (fetchLoop env (cfg.jellyfin_url.getD "") items []).map Prod.fst :=
          List.mem_map_of_mem Prod.fst hp
        rw [mem_keys_fetchLoop] at hk
        rcases hk with hk | ⟨l, _, hr, he⟩
        · simp at hk
        · rw [← he]
          exact hr
      · intro lib hl hr
        rw [mem_keys_fetchLoop]
        exact Or.inr ⟨lib, hl, hr, rfl⟩

/-- Witness for C1 at the specification's worked example: Movies and Shows
are reported, Playlists is absent. -/
theorem playlist_entries_excluded_witness :
    fetchGood.mediaFolders = HttpOutcome.resp 200 [libMovies, libShows, libPlaylists] ∧
    fetch_jellyfin_libraries cfgGood fetchGood = some [("Movies", 120), ("Shows", 15)] ∧
    ((∀ p ∈ [(("Movies" : String), (120 : Nat)), ("Shows", 15)],
        pyIn "playlist" (pyLower p.1) = false) ∧
      (∀ lib ∈ [libMovies, libShows, libPlaylists],
        pyIn "playlist" (pyLower lib.name) = false →
          lib.name ∈ ([(("Movies" : String), (120 : Nat)), ("Shows", 15)]).map Prod.fst)) :=
  ⟨rfl, by decide, playlist_entries_excluded cfgGood fetchGood _ _ rfl (by decide)⟩

/-- C2 (amended): in a status-200 enumeration with pairwise-distinct library
names, the run is never aborted by a per-library failure: a report is
produced, every retained library has an entry, that entry is 0 whenever the
library's count request answers with a status other than exactly 200 or
raises, and it is the server-reported `TotalRecordCount` whenever the
request answers with status 200.  (2xx statuses other than 200 also record
0; see the counterexample.) -/
theorem per_library_failure_contained (cfg : GlobalConfig) (env : FetchEnv)
    (items : List Library)
    (hurl : strTruthy cfg.jellyfin_url = true)
    (hkey : strTruthy cfg.jellyfin_api_key = true)
    (hmf : env.mediaFolders = HttpOutcome.resp 200 items)
    (hnodup : (items.map Library.name).Nodup)
    (lib₀ : Library) (hmem₀ : lib₀ ∈ items)
    (hret₀ : pyIn "playlist" (pyLower lib₀.name) = false) :
    ∃ stats, fetch_jellyfin_libraries cfg env = some stats ∧
      ∀ lib ∈ items, pyIn "playlist" (pyLower lib.name) = false →
        keyVal lib.name stats =
            some (countLibrary env (cfg.jellyfin_url.getD "") lib) ∧
        (∀ status body,
          env.items (countUrl (cfg.jellyfin_url.getD "") lib) = .resp status body →
            status ≠ 200 → countLibrary env (cfg.jellyfin_url.getD "") lib = 0) ∧
        (env.items (countUrl (cfg.jellyfin_url.getD "") lib) = .exn →
          countLibrary env (cfg.jellyfin_url.getD "") lib = 0) ∧
        (∀ body, env.items (countUrl (cfg.jellyfin_url.getD "") lib) = .resp 200 body →
          countLibrary env (cfg.jellyfin_url.getD "") lib = body.getD 0) := by
  have hkeys : lib₀.name ∈
      (fetchLoop env (cfg.jellyfin_url.getD "") items []).map Prod.fst := by
    rw [mem_keys_fetchLoop]
    exact Or.inr ⟨lib₀, hmem₀, hret₀, rfl⟩
  have hne : (fetchLoop env (cfg.jellyfin_url.getD "") items []).isEmpty = false := by
    cases hie : (fetchLoop env (cfg.jellyfin_url.getD "") items []).isEmpty with
    | false => rfl
    | true =>
      rw [List.isEmpty_iff.mp hie] at hkeys
      cases hkeys
  refine ⟨fetchLoop env (cfg.jellyfin_url.getD "") items [], ?_, ?_⟩
  · rw [fetch_resp200_eq cfg env items hurl hkey hmf, hne]
    simp
  · intro lib hmem hret
    refine ⟨fetchLoop_keyVal env _ items [] lib hnodup hmem hret (by simp), ?_, ?_, ?_⟩
    · intro status body hresp hstatus
      unfold countLibrary
      rw [hresp]
      simp [hstatus]
    · intro hexn
      unfold countLibrary
      rw [hexn]
    · intro body hresp
      unfold countLibrary
      rw [hresp]
      simp

/-- C2 counterexample: library A's count request answers 500 and library
B's answers the 2xx (but non-200) status 201 reporting 5 items; the report
records B as 0, not the server-reported 5, so a 2xx response is not enough
to keep the server's count. -/
theorem per_library_2xx_counterexample :
    env201.items (countUrl "http://jf" libB) = HttpOutcome.resp 201 (some 5) ∧
    200 ≤ 201 ∧ 201 < 300 ∧
    fetch_jellyfin_libraries cfgGood env201 = some [("A", 0), ("B", 0)] ∧
    keyVal "B" [("A", 0), ("B", 0)] = some 0 ∧ (0 : Nat) ≠ 5 :=
  ⟨by decide, by decide, by decide, by decide, by decide, by decide⟩

/-- Witness for C2 (amended) at the worked example: Movies reports 120,
Shows reports 15, and the theorem's hypotheses all hold concretely. -/
theorem per_library_failure_contained_witness :
    strTruthy cfgGood.jellyfin_url = true ∧
    strTruthy cfgGood.jellyfin_api_key = true ∧
    fetchGood.mediaFolders = HttpOutcome.resp 200 [libMovies, libShows, libPlaylists] ∧
    ([libMovies, libShows, libPlaylists].map Library.name).Nodup ∧
    libMovies ∈ [libMovies, libShows, libPlaylists] ∧
    pyIn "playlist" (pyLower libMovies.name) = false ∧
    (∃ stats, fetch_jellyfin_libraries cfgGood fetchGood = some stats ∧
      ∀ lib ∈ [libMovies, libShows, libPlaylists],
        pyIn "playlist" (pyLower lib.name) = false →
          keyVal lib.name stats =
              some (countLibrary fetchGood (cfgGood.jellyfin_url.getD "") lib) ∧
          (∀ status body,
            fetchGood.items (countUrl (cfgGood.jellyfin_url.getD "") lib) =
                .resp status body →
              status ≠ 200 →
                countLibrary fetchGood (cfgGood.jellyfin_url.getD "") lib = 0) ∧
          (fetchGood.items (countUrl (cfgGood.jellyfin_url.getD "") lib) = .exn →
            countLibrary fetchGood (cfgGood.jellyfin_url.getD "") lib = 0) ∧
          (∀ body,
            fetchGood.items (countUrl (cfgGood.jellyfin_url.getD "") lib) =
                .resp 200 body →
              countLibrary fetchGood (cfgGood.jellyfin_url.getD "") lib =
                body.getD 0)) :=
  ⟨by decide, by decide, rfl, by decide, by decide, by decide,
    per_library_failure_contained cfgGood fetchGood [libMovies, libShows, libPlaylists]
      (by decide) (by decide) rfl (by decide) libMovies (by decide) (by decide)⟩

/-- The series-filtered and unfiltered items URLs are never the same
string (their lengths differ by the length of the filter clause). -/
theorem countUrl_templates_ne (jellyfin_url id : String) :
    jellyfin_url ++ "/Items?ParentId=" ++ id ++
        "&IncludeItemTypes=Series&Recursive=true&Limit=0" ≠
      jellyfin_url ++ "/Items?ParentId=" ++ id ++ "&Recursive=true&Limit=0" := by
  intro h
  have hlen := congrArg String.length h
  simp only [String.length_append] at hlen
  have h1 : ("&IncludeItemTypes=Series&Recursive=true&Limit=0" : String).length = 47 := rfl
  have h2 : ("&Recursive=true&Limit=0" : String).length = 23 := rfl
  rw [h1, h2] at hlen
  omega

/-- C3: the per-library count query is the series-filtered URL exactly when
the lower-cased collection type contains "tvshows" or "tv", and the plain
recursive URL (both with `Limit=0`) exactly otherwise. -/
theorem tv_series_filter_iff (jellyfin_url : String) (library : Library) :
    (countUrl jellyfin_url library =
        jellyfin_url ++ "/Items?ParentId=" ++ library.id ++
          "&IncludeItemTypes=Series&Recursive=true&Limit=0" ↔
      (pyIn "tvshows" (pyLower (library.collectionType.getD "")) ||
        pyIn "tv" (pyLower (library.collectionType.getD ""))) = true) ∧
    (countUrl jellyfin_url library =
        jellyfin_url ++ "/Items?ParentId=" ++ library.id ++
          "&Recursive=true&Limit=0" ↔
      (pyIn "tvshows" (pyLower (library.collectionType.getD "")) ||
        pyIn "tv" (pyLower (library.collectionType.getD ""))) = false) := by
  have hne := countUrl_templates_ne jellyfin_url library.id
  have hne₂ := Ne.symm hne
  have hcu : countUrl jellyfin_url library =
      if (pyIn "tvshows" (pyLower (library.collectionType.getD "")) ||
          pyIn "tv" (pyLower (library.collectionType.getD ""))) = true then
        jellyfin_url ++ "/Items?ParentId=" ++ library.id ++
          "&IncludeItemTypes=Series&Recursive=true&Limit=0"
      else
        jellyfin_url ++ "/Items?ParentId=" ++ library.id ++
          "&Recursive=true&Limit=0" := rfl
  rw [hcu]
  cases hb : (pyIn "tvshows" (pyLower (library.collectionType.getD "")) ||
      pyIn "tv" (pyLower (library.collectionType.getD ""))) with
  | true => simp [hne]
  | false => simp [hne₂]

/-- C4: under a successful (status-200) media-folders fetch, the aggregation
step returns no report exactly when every listed library is excluded by the
playlist rule (in particular when the list is empty); zero counts alone
never cause this, and whenever no report is produced no message edit is
attempted by `update_stats`. -/
theorem empty_result_iff (cfg : GlobalConfig) (env : UpdateEnv)
    (items : List Library) (b : Bool)
    (hurl : strTruthy cfg.jellyfin_url = true)
    (hkey : strTruthy cfg.jellyfin_api_key = true)
    (hmf : env.fetch.mediaFolders = HttpOutcome.resp 200 items) :
    (fetch_jellyfin_libraries cfg env.fetch = none ↔
      ∀ lib ∈ items, pyIn "playlist" (pyLower lib.name) = true) ∧
    (fetch_jellyfin_libraries cfg env.fetch = none →
      ∀ mid c e, Effect.editMessage mid c e ∉ (update_stats cfg env b).2) := by
  have hfe := fetch_resp200_eq cfg env.fetch items hurl hkey hmf
  constructor
  · rw [hfe]
    constructor
    · intro h lib hl
      cases hie : (fetchLoop env.fetch (cfg.jellyfin_url.getD "") items []).isEmpty with
      | false =>
        rw [hie] at h
        cases h
      | true =>
        cases hb : pyIn "playlist" (pyLower lib.name) with
        | true => rfl
        | false =>
          have hkeys : lib.name ∈
              (fetchLoop env.fetch (cfg.jellyfin_url.getD "") items []).map Prod.fst := by
            rw [mem_keys_fetchLoop]
            exact Or.inr ⟨lib, hl, hb, rfl⟩
          rw [List.isEmpty_iff.mp hie] at hkeys
          cases hkeys
    · intro hall
      cases hie : (fetchLoop env.fetch (cfg.jellyfin_url.getD "") items []).isEmpty with
      | true => simp
      | false =>
        exfalso
        have hnonnil : fetchLoop env.fetch (cfg.jellyfin_url.getD "") items [] ≠ [] := by
          intro hcon
          rw [hcon] at hie
          cases hie
        obtain ⟨p, hp⟩ := List.exists_mem_of_ne_nil _ hnonnil
        have hkeys : p.1 ∈
            (fetchLoop env.fetch (cfg.jellyfin_url.getD "") items []).map Prod.fst :=
          List.mem_map_of_mem Prod.fst hp
        rw [mem_keys_fetchLoop] at hkeys
        rcases hkeys with hk | ⟨l, hl, hr, _⟩
        · cases hk
        · rw [hall l hl] at hr
          cases hr
  · intro h mid c e
    unfold update_stats
    split
    · simp
    · rw [h]
      simp

/-- Witness for C4: a listing containing only the Playlists library yields
no report, and no message edit appears in the run's effect trace. -/
theorem empty_result_iff_witness :
    strTruthy cfgGood.jellyfin_url = true ∧
    strTruthy cfgGood.jellyfin_api_key = true ∧
    envPlaylistsOnly.fetch.mediaFolders = HttpOutcome.resp 200 [libPlaylists] ∧
    ((fetch_jellyfin_libraries cfgGood envPlaylistsOnly.fetch = none ↔
        ∀ lib ∈ [libPlaylists], pyIn "playlist" (pyLower lib.name) = true) ∧
      (fetch_jellyfin_libraries cfgGood envPlaylistsOnly.fetch = none →
        ∀ mid c e,
          Effect.editMessage mid c e ∉ (update_stats cfgGood envPlaylistsOnly false).2)) :=
  ⟨by decide, by decide, rfl,
    empty_result_iff cfgGood envPlaylistsOnly [libPlaylists] false
      (by decide) (by decide) rfl⟩

/-- C5 counterexample: with the configuration entirely missing, the
scheduled run fails (`update_stats` returns `False` without raising), yet
the loop sleeps the 7-day success interval — 604800 s, not the claimed
3600 s backoff. -/
theorem scheduler_backoff_counterexample :
    (update_stats cfgNone envTriv false).1 = false ∧
    background_update_iteration cfgNone envTriv = LoopStep.continueAfter 604800 ∧
    (604800 : Nat) ≠ 3600 :=
  ⟨by decide, rfl, by decide⟩

/-- C5 (amended): failures that `update_stats` converts into a `False`
return (missing configuration, enumeration-level network or non-200
failures, publish failures) never trigger the 1-hour backoff — every
scheduled iteration sleeps the 7-day interval and the loop never stops
because of a run's outcome; the 3600-second backoff is reserved for an
exception escaping `update_stats`. -/
theorem scheduler_failure_handling :
    (update_stats cfgNone envTriv false).1 = false ∧
    (∀ cfg env, background_update_iteration cfg env = LoopStep.continueAfter 604800 ∧
      background_update_iteration cfg env ≠ LoopStep.stopped) ∧
    backgroundSleep RunOutcome.raised = 3600 :=
  ⟨by decide, fun cfg env => ⟨rfl, fun h => LoopStep.noConfusion h⟩, rfl⟩

/-- C6: when the report was computed but the tracked message id no longer
resolves (`discord.NotFound`), `update_stats` returns `False` with no
recorded side effects — the failure is reported to the invoker, nothing
escapes to the scheduler, and the loop continues. -/
theorem message_not_found_contained (cfg : GlobalConfig) (env : UpdateEnv)
    (b : Bool) (stats : List (String × Nat))
    (hfetch : fetch_jellyfin_libraries cfg env.fetch = some stats)
    (hchan : env.channelFound = true)
    (hmsg : env.msgFetch = MsgFetch.notFound) :
    update_stats cfg env b = (false, []) ∧
    ∃ sleepSeconds,
      background_update_iteration cfg env = LoopStep.continueAfter sleepSeconds := by
  refine ⟨?_, 604800, rfl⟩
  unfold update_stats
  split
  · rfl
  · rw [hfetch, hchan, hmsg]
    dsimp only
    split
    · rfl
    · rfl

/-- Witness for C6: concretely, deleting the tracked message (the fetch
answers NotFound) makes the run report failure without effects. -/
theorem message_not_found_contained_witness :
    fetch_jellyfin_libraries cfgGood envMsgGone.fetch =
        some [("Movies", 120), ("Shows", 15)] ∧
    envMsgGone.channelFound = true ∧
    envMsgGone.msgFetch = MsgFetch.notFound ∧
    (update_stats cfgGood envMsgGone false = (false, []) ∧
      ∃ sleepSeconds,
        background_update_iteration cfgGood envMsgGone =
          LoopStep.continueAfter sleepSeconds) :=
  ⟨by decide, rfl, rfl,
    message_not_found_contained cfgGood envMsgGone false [("Movies", 120), ("Shows", 15)]
      (by decide) rfl rfl⟩

/-- C7 counterexample: a media-folders response with the 2xx (but non-200)
status 201, over a listing that contains a retained (non-playlist) library
and well-behaved count requests, is not processed as a successful listing —
the fetch fails with no report. -/
theorem enumeration_2xx_counterexample :
    fetch_jellyfin_libraries cfgGood envMf201 = none ∧
    envMf201.mediaFolders = HttpOutcome.resp 201 [libMovies] ∧
    200 ≤ 201 ∧ 201 < 300 ∧
    pyIn "playlist" (pyLower libMovies.name) = false :=
  ⟨by decide, rfl, by decide, by decide, by decide⟩

/-- C7 (amended): with URL and API key configured and at least one
non-playlist library listed, library enumeration fails (no report) exactly
when the media-folders request returns a status other than precisely 200;
status 200 is the only status processed as a successful listing. -/
theorem enumeration_success_iff_200 (cfg : GlobalConfig) (env : FetchEnv)
    (status : Nat) (items : List Library)
    (hurl : strTruthy cfg.jellyfin_url = true)
    (hkey : strTruthy cfg.jellyfin_api_key = true)
    (hmf : env.mediaFolders = HttpOutcome.resp status items)
    (hret : ∃ lib ∈ items, pyIn "playlist" (pyLower lib.name) = false) :
    fetch_jellyfin_libraries cfg env = none ↔ status ≠ 200 := by
  by_cases hs : status = 200
  · subst hs
    obtain ⟨lib, hl, hr⟩ := hret
    have hkeys : lib.name ∈
        (fetchLoop env (cfg.jellyfin_url.getD "") items []).map Prod.fst := by
      rw [mem_keys_fetchLoop]
      exact Or.inr ⟨lib, hl, hr, rfl⟩
    have hne : (fetchLoop env (cfg.jellyfin_url.getD "") items []).isEmpty = false := by
      cases hie : (fetchLoop env (cfg.jellyfin_url.getD "") items []).isEmpty with
      | false => rfl
      | true =>
        rw [List.isEmpty_iff.mp hie] at hkeys
        cases hkeys
    rw [fetch_resp200_eq cfg env items hurl hkey hmf, hne]
    simp
  · unfold fetch_jellyfin_libraries
    rw [hmf, hurl, hkey]
    simp [hs]

/-- Witness for C7 (amended): a 500 response on the media-folders request
makes the fetch fail. -/
theorem enumeration_success_iff_200_witness :
    strTruthy cfgGood.jellyfin_url = true ∧
    strTruthy cfgGood.jellyfin_api_key = true ∧
    envMf500.mediaFolders = HttpOutcome.resp 500 [libMovies] ∧
    (∃ lib ∈ [libMovies], pyIn "playlist" (pyLower lib.name) = false) ∧
    (fetch_jellyfin_libraries cfgGood envMf500 = none ↔ 500 ≠ 200) :=
  ⟨by decide, by decide, rfl, ⟨libMovies, by decide, by decide⟩,
    enumeration_success_iff_200 cfgGood envMf500 500 [libMovies]
      (by decide) (by decide) rfl ⟨libMovies, by decide, by decide⟩⟩

/-- C8 counterexample: setup removes only one trailing slash, so the input
URL "http://h//" is stored as "http://h/", which still ends with '/'. -/
theorem setup_trailing_slash_counterexample :
    (setup_jellyfin_stats cfgNone "http://h//" "k" 1 2).jellyfin_url =
        some "http://h/" ∧
    ("http://h/" : String).data.getLast? = some '/' :=
  ⟨by decide, by decide⟩

/-- C8 (amended): setup stores the input URL with exactly one trailing
slash removed, so whenever the input does not end in two consecutive
slashes the stored base_url does not end with '/'. -/
theorem setup_url_no_trailing_slash (cfg : GlobalConfig) (u api_key : String)
    (channel_id new_message_id : Nat)
    (h : ¬(u.data.getLast? = some '/' ∧ u.data.dropLast.getLast? = some '/')) :
    (setup_jellyfin_stats cfg u api_key channel_id new_message_id).jellyfin_url =
        some (setup_normalize_url u) ∧
    (setup_normalize_url u).data.getLast? ≠ some '/' := by
  refine ⟨rfl, ?_⟩
  unfold setup_normalize_url
  by_cases hl : u.data.getLast? = some '/'
  · rw [if_pos hl]
    intro hcon
    exact h ⟨hl, hcon⟩
  · rw [if_neg hl]
    exact hl

/-- Witness for C8 (amended) at the input "http://h/": the stored URL is
"http://h", which does not end with '/'. -/
theorem setup_url_no_trailing_slash_witness :
    (¬(("http://h/" : String).data.getLast? = some '/' ∧
        ("http://h/" : String).data.dropLast.getLast? = some '/')) ∧
    ((setup_jellyfin_stats cfgNone "http://h/" "k" 1 2).jellyfin_url =
        some (setup_normalize_url "http://h/") ∧
      (setup_normalize_url "http://h/").data.getLast? ≠ some '/') :=
  ⟨by decide, setup_url_no_trailing_slash cfgNone "http://h/" "k" 1 2 (by decide)⟩

/-- C9: `update_stats` never reads its `force_update` argument, so two runs
that differ only in that flag return the same value and produce the same
effect trace under every configuration and environment. -/
theorem force_update_insensitive (cfg : GlobalConfig) (env : UpdateEnv)
    (b₁ b₂ : Bool) :
    update_stats cfg env b₁ = update_stats cfg env b₂ := rfl

/-- C10: the `last_update` configuration key is written exactly on the runs
of `update_stats` that return `True`; every failure path leaves it
untouched. -/
theorem last_update_written_iff_success (cfg : GlobalConfig) (env : UpdateEnv)
    (b : Bool) :
    (update_stats cfg env b).2.any isSetLastUpdate = (update_stats cfg env b).1 := by
  unfold update_stats
  repeat' split
  all_goals simp [isSetLastUpdate]

end JellyfinStats
